import Mathlib

/-!
Shallow embedding of the MLIL function subsystem
(`src/rust/src/mlil/function.rs`): the `MediumLevelILFunction` container,
its instruction index, SSA projection, variable reference queries and the
user value annotator.  The Rust code is a wrapper around an external
analysis engine reached through `BN*` foreign calls; the wrapper logic is
translated directly from the source, while the engine primitives the
wrapper invokes are modelled as fields of an explicit state (or, where a
behaviour of the engine itself is needed, as definitions whose doc comment
says what they are modelled from).
-/

namespace MLILSpec

/-- An architecture handle (`CoreArchitecture` wraps an opaque core handle;
we identify it by a numeric id). -/
structure Arch where
  id : Nat
deriving DecidableEq

/-- `Variable`: storage-class tag, disambiguating index and storage
identifier, as in `crate::types::Variable::raw()`. -/
structure Variable where
  sourceType : Nat
  index : Nat
  storage : Int
deriving DecidableEq

/-- `PossibleValueSet`: the informed-value vocabulary passed to
`set_user_var_value` (only the shape matters here). -/
inductive PossibleValueSet where
  | undeterminedValue
  | constantValue (value : Int)
  | constantPointerValue (value : Int)
deriving DecidableEq

/-- `BNArchitectureAndAddress`: the definition-site key built in
`set_user_var_value` / `clear_user_var_value`. -/
structure ArchitectureAndAddress where
  arch : Arch
  address : Nat
deriving DecidableEq

/-- A `MediumLevelILInstruction`: its expression position within the owning
function and its program address. -/
structure MediumLevelILInstruction where
  exprIdx : Nat
  address : Nat
deriving DecidableEq

/-- `FunctionGraphType` (`BNFunctionGraphType`): the closed IL-layer tag
carried by every `ILReferenceSource`. -/
inductive FunctionGraphType where
  | normalFunctionGraph
  | lowLevelILFunctionGraph
  | mediumLevelILFunctionGraph
  | mediumLevelILSSAFormFunctionGraph
  | highLevelILFunctionGraph
deriving DecidableEq

/-- `ILReferenceSource`: one located IL cross-reference
(architecture, address, IL-layer kind, expression id). -/
structure ILReferenceSource where
  arch : Arch
  addr : Nat
  graphType : FunctionGraphType
  exprId : Nat
deriving DecidableEq

/-- `VariableReferenceSource`: an `ILReferenceSource` paired with the
`Variable` it refers to. -/
structure VariableReferenceSource where
  var : Variable
  source : ILReferenceSource
deriving DecidableEq

/-- One entry of `UserVariableValues` as enumerated by
`BNGetAllUserVariableValues`: `(variable, architecture-and-address, value)`. -/
structure UserValueFact where
  var : Variable
  site : ArchitectureAndAddress
  value : PossibleValueSet
deriving DecidableEq

/-- The state of the owning analyzed `Function`
(`BNGetMediumLevelILOwnerFunction` target).  Its fields stand for what the
engine stores per function: its identity (handle), its own architecture
(`Function::arch`), the committed user variable value facts
(`BNGetAllUserVariableValues`), the whole-function variable reference list
under a given architecture decoding, and a counter of dataflow
re-propagation passes triggered by value-fact mutations. -/
structure FunctionState where
  ownerId : Nat
  arch : Arch
  userVarValues : List UserValueFact
  varRefs : Arch → List VariableReferenceSource
  propagations : Nat

/-- The per-`BNMediumLevelILFunction` analysis data an MLIL handle reads:
instruction count (`BNGetMediumLevelILInstructionCount`), the map from
(architecture, address) to first expression position at or after that
address (`BNMediumLevelILGetInstructionStart`), the address of each
expression, and the definition-site list per variable
(`BNGetMediumLevelILVariableDefinitions`). -/
structure MLILData where
  instructionCount : Nat
  instructionStart : Arch → Nat → Nat
  exprAddress : Nat → Nat
  varDefinitions : Variable → List MediumLevelILInstruction

/-- `MediumLevelILFunction`: an MLIL handle, its owning analyzed function
and the SSA-form counterpart the engine has derived for it (`none` models a
null `BNGetMediumLevelILSSAForm` result: SSA not computed yet). -/
structure MediumLevelILFunction where
  owner : FunctionState
  data : MLILData
  ssa : Option MLILData

/-- A fatal (non-recoverable) failure: `Option::unwrap` on `None`, or a
failed `assert!`.  Distinct from the recoverable `Result` error `()`. -/
inductive Panic where
  | unwrapNone
  | assertionFailed
deriving DecidableEq

/-- `crate::function::Location`: a program address with an optional
architecture. -/
structure Location where
  arch : Option Arch
  addr : Nat

/-- `MediumLevelILFunction::get_function`. -/
def get_function (f : MediumLevelILFunction) : FunctionState :=
  f.owner

/-- `Function` equality: two `Ref<Function>` handles are equal exactly when
they denote the same analyzed function (the engine keeps one function
object per analyzed function, identified here by `ownerId`). -/
def funcBeq (a b : FunctionState) : Bool :=
  a.ownerId == b.ownerId

/-- `impl PartialEq for MediumLevelILFunction`: delegates to
`get_function().eq(&rhs.get_function())`. -/
def mlilBeq (f g : MediumLevelILFunction) : Bool :=
  funcBeq (get_function f) (get_function g)

/-- `impl Hash for MediumLevelILFunction`: delegates to the owner
function's hash; `h` stands for the hasher applied to the owner's
identity. -/
def mlilHash (h : Nat → Nat) (f : MediumLevelILFunction) : Nat :=
  h (get_function f).ownerId

/-- `MediumLevelILFunction::instruction_count`. -/
def instruction_count (f : MediumLevelILFunction) : Nat :=
  f.data.instructionCount

/-- `MediumLevelILFunction::instruction_at`: `loc.arch.unwrap()` panics
when the location carries no architecture; otherwise the expression
position is resolved through `BNMediumLevelILGetInstructionStart` and the
result is `none` when that position is `>= instruction_count()`. -/
def instruction_at (f : MediumLevelILFunction) (loc : Location) :
    Except Panic (Option MediumLevelILInstruction) :=
  match loc.arch with
  | none => .error .unwrapNone
  | some a =>
    let exprIdx := f.data.instructionStart a loc.addr
    if f.data.instructionCount ≤ exprIdx then
      .ok none
    else
      .ok (some { exprIdx := exprIdx, address := f.data.exprAddress exprIdx })

/-- `MediumLevelILFunction::get_var_definitions` (the sequence behind the
spec's `definitions_of`). -/
def get_var_definitions (f : MediumLevelILFunction) (var : Variable) :
    List MediumLevelILInstruction :=
  f.data.varDefinitions var

/-- Whether the search `get_var_definitions(var).find(|d| d.address == addr)`
succeeds — the definition-site precondition of the user value annotator. -/
def hasDefSite (f : MediumLevelILFunction) (var : Variable) (addr : Nat) : Bool :=
  ((get_var_definitions f var).find? (fun d => d.address == addr)).isSome

/-- Modelled from the spec: `BNSetUserVariableValue` is outside `src/`;
per §4.5 a successful `set_value` commits the fact for its
(variable, definition-site) key — replacing any previous fact under the
same key, since facts form a mapping — and triggers one solver
re-propagation pass. -/
def bnSetUserVariableValue (s : FunctionState) (var : Variable)
    (defSite : ArchitectureAndAddress) (value : PossibleValueSet) : FunctionState :=
  { s with
    userVarValues :=
      { var := var, site := defSite, value := value } ::
        s.userVarValues.filter (fun e => !(e.var == var && e.site == defSite))
    propagations := s.propagations + 1 }

/-- Modelled from the spec: `BNClearUserVariableValue` is outside `src/`;
per §4.5 a successful `clear_value` removes the fact under the
(variable, definition-site) key and triggers one solver re-propagation
pass. -/
def bnClearUserVariableValue (s : FunctionState) (var : Variable)
    (defSite : ArchitectureAndAddress) : FunctionState :=
  { s with
    userVarValues :=
      s.userVarValues.filter (fun e => !(e.var == var && e.site == defSite))
    propagations := s.propagations + 1 }

/-- `MediumLevelILFunction::set_user_var_value`: searches
`get_var_definitions(var)` for a definition whose address equals `addr`;
when absent it returns `Err(())` with no mutation, otherwise it builds the
`BNArchitectureAndAddress` def site from the owner function's architecture
and writes through `BNSetUserVariableValue`.  State passing stands for the
mutation performed through `&self`. -/
def set_user_var_value (f : MediumLevelILFunction) (var : Variable) (addr : Nat)
    (value : PossibleValueSet) : Except Unit Unit × MediumLevelILFunction :=
  match (get_var_definitions f var).find? (fun d => d.address == addr) with
  | none => (.error (), f)
  | some _ =>
    let function := get_function f
    let defSite : ArchitectureAndAddress := { arch := function.arch, address := addr }
    (.ok (), { f with owner := bnSetUserVariableValue function var defSite value })

/-- `MediumLevelILFunction::clear_user_var_value`: same definition-site
search as `set_user_var_value`; on success removes the fact through
`BNClearUserVariableValue`. -/
def clear_user_var_value (f : MediumLevelILFunction) (var : Variable) (addr : Nat) :
    Except Unit Unit × MediumLevelILFunction :=
  match (get_var_definitions f var).find? (fun site => site.address == addr) with
  | none => (.error (), f)
  | some _ =>
    let function := get_function f
    let defSite : ArchitectureAndAddress := { arch := function.arch, address := addr }
    (.ok (), { f with owner := bnClearUserVariableValue function var defSite })

/-- `MediumLevelILFunction::user_var_values` (the spec's `list_values`):
reads the committed facts from the owner function. -/
def user_var_values (f : MediumLevelILFunction) : List UserValueFact :=
  (get_function f).userVarValues

/-- The `for` loop of `clear_user_var_values`: clears each enumerated fact
in turn at its `arch_and_addr.address`; the `?` operator stops at the first
failure. -/
def clearValuesLoop (f : MediumLevelILFunction) :
    List UserValueFact → Except Unit Unit × MediumLevelILFunction
  | [] => (.ok (), f)
  | fact :: rest =>
    match clear_user_var_value f fact.var fact.site.address with
    | (.error e, f') => (.error e, f')
    | (.ok _, f') => clearValuesLoop f' rest

/-- `MediumLevelILFunction::clear_user_var_values`: iterates the snapshot
`user_var_values().all()` taken at entry. -/
def clear_user_var_values (f : MediumLevelILFunction) :
    Except Unit Unit × MediumLevelILFunction :=
  clearValuesLoop f (user_var_values f)

/-- `MediumLevelILFunction::ssa_form`: `BNGetMediumLevelILSSAForm` followed
by `assert!(!ssa.is_null())`.  Modelled from the spec for the engine part:
the call returns the already-derived, cached SSA counterpart (null when SSA
has not been computed, which trips the assertion); the SSA container is
owned by the same analyzed function, and it is its own SSA form. -/
def ssa_form (f : MediumLevelILFunction) : Except Panic MediumLevelILFunction :=
  match f.ssa with
  | none => .error .assertionFailed
  | some d => .ok { owner := f.owner, data := d, ssa := some d }

/-- Modelled from the spec: `BNGetMediumLevelILVariableReferencesFrom` is
outside `src/`; per the source's own doc comment it returns the variable
references found "at the address `addr`" under the given architecture's
decoding. -/
def bnGetVariableReferencesFrom (s : FunctionState) (arch : Arch) (addr : Nat) :
    List VariableReferenceSource :=
  (s.varRefs arch).filter (fun r => r.source.addr == addr)

/-- Modelled from the spec: `BNGetMediumLevelILVariableReferencesInRange`
is outside `src/`; per §4.4 it returns the variable references touching the
half-open range from `addr` of the given length. -/
def bnGetVariableReferencesInRange (s : FunctionState) (arch : Arch)
    (addr len : Nat) : List VariableReferenceSource :=
  (s.varRefs arch).filter (fun r => addr ≤ r.source.addr && r.source.addr < addr + len)

/-- `MediumLevelILFunction::var_refs_from` (the spec's `references_in`):
the architecture defaults to the owner function's own
(`arch.unwrap_or_else(|| function.arch())`); with a length it queries the
range primitive, without one the at-address primitive. -/
def var_refs_from (f : MediumLevelILFunction) (addr : Nat) (length : Option Nat)
    (arch : Option Arch) : List VariableReferenceSource :=
  let function := get_function f
  let a := arch.getD function.arch
  match length with
  | some len => bnGetVariableReferencesInRange function a addr len
  | none => bnGetVariableReferencesFrom function a addr

/-! ### Concrete states used by witnesses and counterexamples -/

/-- A stack variable of the sample function. -/
def varV : Variable := { sourceType := 0, index := 1, storage := 8 }

/-- A register variable with no definition sites in the sample function. -/
def varW : Variable := { sourceType := 1, index := 2, storage := 0 }

/-- The sample function's own architecture. -/
def arch0 : Arch := { id := 0 }

/-- A different architecture. -/
def arch1 : Arch := { id := 1 }

/-- A reference to `varV` at address `5` in the MLIL layer. -/
def refAt5 : VariableReferenceSource :=
  { var := varV
    source :=
      { arch := arch0, addr := 5, graphType := .mediumLevelILFunctionGraph, exprId := 0 } }

/-- The committed fact of the sample function: `varV = 5` at its definition
site `4096`. -/
def factV : UserValueFact :=
  { var := varV, site := { arch := arch0, address := 4096 }, value := .constantValue 5 }

/-- Owner function of the sample MLIL handle. -/
def sampleOwner : FunctionState :=
  { ownerId := 7
    arch := arch0
    userVarValues := [factV]
    varRefs := fun a => if a == arch0 then [refAt5] else []
    propagations := 0 }

/-- MLIL data of the sample function: two instructions, `varV` defined at
address `4096`. -/
def sampleData : MLILData :=
  { instructionCount := 2
    instructionStart := fun _ addr => if addr ≤ 4100 then 0 else 2
    exprAddress := fun e => 4096 + 4 * e
    varDefinitions := fun v =>
      if v == varV then [{ exprIdx := 0, address := 4096 }] else [] }

/-- Derived SSA data of the sample function (a distinct instruction
stream). -/
def sampleSSAData : MLILData :=
  { instructionCount := 3
    instructionStart := fun _ addr => if addr ≤ 4100 then 0 else 3
    exprAddress := fun e => 4096 + 4 * e
    varDefinitions := fun _ => [] }

/-- The sample non-SSA MLIL handle. -/
def sampleF : MediumLevelILFunction :=
  { owner := sampleOwner, data := sampleData, ssa := some sampleSSAData }

/-- The SSA container `ssa_form` returns for `sampleF`. -/
def sampleSSAF : MediumLevelILFunction :=
  { owner := sampleOwner, data := sampleSSAData, ssa := some sampleSSAData }

/-- An MLIL handle whose SSA form has not been computed yet. -/
def sampleNoSSAF : MediumLevelILFunction :=
  { owner := sampleOwner, data := sampleData, ssa := none }

/-! ### Helper lemmas about the user value annotator -/

/-- When the definition-site search fails, `set_user_var_value` and
`clear_user_var_value` both return the unit error and leave the state
untouched. -/
theorem set_clear_error_of_no_def_site (f : MediumLevelILFunction)
    (v : Variable) (a : Nat) (val : PossibleValueSet)
    (h : hasDefSite f v a = false) :
    set_user_var_value f v a val = (.error (), f) ∧
    clear_user_var_value f v a = (.error (), f) := by
  cases hfind : (get_var_definitions f v).find? (fun d => d.address == a) with
  | none =>
    exact ⟨by simp [set_user_var_value, hfind], by simp [clear_user_var_value, hfind]⟩
  | some d => simp [hasDefSite, hfind] at h

/-- When the definition-site search succeeds, both operations return `Ok`. -/
theorem set_clear_ok_of_def_site (f : MediumLevelILFunction)
    (v : Variable) (a : Nat) (val : PossibleValueSet)
    (h : hasDefSite f v a = true) :
    (set_user_var_value f v a val).1 = .ok () ∧
    (clear_user_var_value f v a).1 = .ok () := by
  cases hfind : (get_var_definitions f v).find? (fun d => d.address == a) with
  | none => simp [hasDefSite, hfind] at h
  | some d =>
    exact ⟨by simp [set_user_var_value, hfind], by simp [clear_user_var_value, hfind]⟩

/-! ### C1: definition-site precondition of `set_value` / `clear_value` -/

/-- C1: for every variable `v` and address `a`, when `a` is not the address
of any definition site of `v` (the check searches the sequence produced by
`get_var_definitions`, the spec's `definitions_of`), `set_user_var_value`
and `clear_user_var_value` each return the no-such-definition-site error
and leave the state untouched (no solver write-through, user value facts
unchanged); when `a` is a definition site, both operations proceed and
succeed. -/
theorem set_clear_value_def_site_check (f : MediumLevelILFunction)
    (v : Variable) (a : Nat) (val : PossibleValueSet) :
    (hasDefSite f v a =
      ((get_var_definitions f v).find? (fun d => d.address == a)).isSome) ∧
    (hasDefSite f v a = false →
      set_user_var_value f v a val = (.error (), f) ∧
      clear_user_var_value f v a = (.error (), f)) ∧
    (hasDefSite f v a = true →
      (set_user_var_value f v a val).1 = .ok () ∧
      (clear_user_var_value f v a).1 = .ok ()) := by
  exact ⟨rfl, set_clear_error_of_no_def_site f v a val,
    set_clear_ok_of_def_site f v a val⟩

/-- C1 witness: in the sample function, address `5` is not a definition
site of `varV`, so both operations fail there without mutation, while the
actual definition site `4096` is accepted. -/
theorem set_clear_value_def_site_check_witness :
    hasDefSite sampleF varV 5 = false ∧
    set_user_var_value sampleF varV 5 (.constantValue 1) = (.error (), sampleF) ∧
    clear_user_var_value sampleF varV 5 = (.error (), sampleF) ∧
    hasDefSite sampleF varV 4096 = true ∧
    (set_user_var_value sampleF varV 4096 (.constantValue 1)).1 = .ok () := by
  refine ⟨by decide, ?_, ?_, by decide, ?_⟩
  · exact ((set_clear_value_def_site_check sampleF varV 5
      (.constantValue 1)).2.1 (by decide)).1
  · exact ((set_clear_value_def_site_check sampleF varV 5
      (.constantValue 1)).2.1 (by decide)).2
  · exact ((set_clear_value_def_site_check sampleF varV 4096
      (.constantValue 1)).2.2 (by decide)).1

/-! ### C2: `instruction_at` result versus the instruction count -/

/-- C2: for a location carrying an architecture, `instruction_at` answers
`none` exactly when the expression position resolved for the address is at
or past `instruction_count`; when it answers an instruction, that
instruction sits at the resolved expression position; and for a function
with zero instructions the answer is `none` rather than a failure. -/
theorem instruction_at_none_iff_past_count (f : MediumLevelILFunction)
    (loc : Location) (a : Arch) (h : loc.arch = some a) :
    (instruction_at f loc = .ok none ↔
      instruction_count f ≤ f.data.instructionStart a loc.addr) ∧
    (∀ i, instruction_at f loc = .ok (some i) →
      i.exprIdx = f.data.instructionStart a loc.addr) ∧
    (instruction_count f = 0 → instruction_at f loc = .ok none) := by
  have hcalc : instruction_at f loc =
      (if f.data.instructionCount ≤ f.data.instructionStart a loc.addr then
        .ok none
      else
        .ok (some { exprIdx := f.data.instructionStart a loc.addr,
                    address := f.data.exprAddress (f.data.instructionStart a loc.addr) })) := by
    unfold instruction_at
    rw [h]
  by_cases hle : f.data.instructionCount ≤ f.data.instructionStart a loc.addr
  · rw [hcalc, if_pos hle]
    refine ⟨by simp [instruction_count, hle], ?_, fun _ => rfl⟩
    intro i hi
    simp at hi
  · rw [hcalc, if_neg hle]
    refine ⟨by simp [instruction_count, hle], ?_, ?_⟩
    · intro i hi
      simp only [Except.ok.injEq, Option.some.injEq] at hi
      rw [← hi]
    · intro h0
      exact absurd (by rw [show f.data.instructionCount = 0 from h0]; exact Nat.zero_le _) hle

/-- C2 witness: in the sample function, address `4200` resolves past the
instruction count and yields `none`, while address `4096` yields the
instruction at expression position `0`. -/
theorem instruction_at_none_iff_past_count_witness :
    instruction_at sampleF { arch := some arch0, addr := 4200 } = .ok none ∧
    instruction_at sampleF { arch := some arch0, addr := 4096 } =
      .ok (some { exprIdx := 0, address := 4096 }) := by
  constructor
  · exact (instruction_at_none_iff_past_count sampleF
      { arch := some arch0, addr := 4200 } arch0 rfl).1.mpr (by decide)
  · rfl

/-! ### C9: `instruction_at` panics on a location with no architecture -/

/-- C9: when the location carries no architecture, `instruction_at` panics
(`loc.arch.unwrap()`) before consulting any function state — the outcome is
the same for every function; when an architecture is present the call does
not panic and returns an `Option` result. -/
theorem instruction_at_panics_without_arch (f : MediumLevelILFunction)
    (loc : Location) :
    (loc.arch = none → instruction_at f loc = .error .unwrapNone) ∧
    (loc.arch = none → ∀ g : MediumLevelILFunction,
      instruction_at f loc = instruction_at g loc) ∧
    (∀ a, loc.arch = some a → ∃ r, instruction_at f loc = .ok r) := by
  refine ⟨?_, ?_, ?_⟩
  · intro h
    unfold instruction_at
    rw [h]
  · intro h g
    unfold instruction_at
    rw [h]
  · intro a h
    unfold instruction_at
    rw [h]
    by_cases hle : f.data.instructionCount ≤ f.data.instructionStart a loc.addr
    · exact ⟨none, by simp [hle]⟩
    · exact ⟨some
        { exprIdx := f.data.instructionStart a loc.addr
          address := f.data.exprAddress (f.data.instructionStart a loc.addr) },
        by simp [hle]⟩

/-- C9 witness: the sample function panics at an architecture-less location
and succeeds at one carrying an architecture. -/
theorem instruction_at_panics_without_arch_witness :
    instruction_at sampleF { arch := none, addr := 4096 } = .error .unwrapNone ∧
    instruction_at sampleF { arch := some arch0, addr := 4096 } =
      .ok (some { exprIdx := 0, address := 4096 }) := by
  constructor
  · exact (instruction_at_panics_without_arch sampleF
      { arch := none, addr := 4096 }).1 rfl
  · rfl

/-! ### C5: idempotence of `ssa_form` -/

/-- C5: two successive `ssa_form` calls on the same (unchanged) function
return the very same container; the container they return carries exactly
the SSA state the engine has already derived and cached for the function
(`f.ssa`), so nothing is re-derived on the second call — indeed projecting
the returned SSA container again yields that same container. -/
theorem ssa_form_idempotent (f g₁ g₂ : MediumLevelILFunction)
    (h₁ : ssa_form f = .ok g₁) (h₂ : ssa_form f = .ok g₂) :
    g₁ = g₂ ∧ f.ssa = some g₁.data ∧ ssa_form g₁ = .ok g₁ := by
  cases hssa : f.ssa with
  | none => simp [ssa_form, hssa] at h₁
  | some d =>
    rw [ssa_form, hssa] at h₁ h₂
    simp only [Except.ok.injEq] at h₁ h₂
    subst h₁
    subst h₂
    exact ⟨rfl, rfl, rfl⟩

/-- C5 witness: both calls on the sample function return `sampleSSAF`, and
that container is the cached SSA data of `sampleF`. -/
theorem ssa_form_idempotent_witness :
    ssa_form sampleF = .ok sampleSSAF ∧
    sampleF.ssa = some sampleSSAF.data ∧
    ssa_form sampleSSAF = .ok sampleSSAF := by
  refine ⟨rfl, ?_, ?_⟩
  · exact (ssa_form_idempotent sampleF sampleSSAF sampleSSAF rfl rfl).2.1
  · exact (ssa_form_idempotent sampleF sampleSSAF sampleSSAF rfl rfl).2.2

/-! ### C6: failure condition of `ssa_form` -/

/-- C6: `ssa_form` fails exactly when the engine has no derived SSA form
for the function (a null `BNGetMediumLevelILSSAForm` result), and the only
possible failure is the fatal assertion (a `Panic`, not a recoverable
error); whenever the SSA form has been computed — the state after the
owning function's MLIL analysis pass — the call returns a valid SSA
container. -/
theorem ssa_form_fails_only_without_ssa (f : MediumLevelILFunction) :
    (ssa_form f = .error .assertionFailed ↔ f.ssa = none) ∧
    (∀ e, ssa_form f = .error e → e = .assertionFailed) ∧
    (∀ d, f.ssa = some d → ∃ g, ssa_form f = .ok g) := by
  cases hssa : f.ssa with
  | none =>
    refine ⟨by simp [ssa_form, hssa], fun e he => ?_, fun d hd => by simp [hssa] at hd⟩
    rw [ssa_form, hssa] at he
    simp only [Except.error.injEq] at he
    exact he.symm
  | some d =>
    refine ⟨by simp [ssa_form, hssa], fun e he => ?_, fun d' hd' => ?_⟩
    · rw [ssa_form, hssa] at he
      simp at he
    · exact ⟨_, by rw [ssa_form, hssa]⟩

/-- C6 witness: the sample function with computed SSA succeeds; the one
without trips the assertion. -/
theorem ssa_form_fails_only_without_ssa_witness :
    ssa_form sampleNoSSAF = .error .assertionFailed ∧
    Panic.assertionFailed = .assertionFailed ∧
    ssa_form sampleF = .ok sampleSSAF := by
  refine ⟨?_, ?_, rfl⟩
  · exact (ssa_form_fails_only_without_ssa sampleNoSSAF).1.mpr rfl
  · exact (ssa_form_fails_only_without_ssa sampleNoSSAF).2.1 .assertionFailed rfl

/-! ### C10: equality and hashing delegate to the owner function -/

/-- C10: `PartialEq` and `Hash` of an MLIL handle are delegated to the
owning analyzed function: two handles compare equal exactly when their
owners are the same function, equal handles hash identically under any
hasher, and a function compares equal to its own SSA form (the SSA
container shares the owner even though it is a distinct container). -/
theorem mlil_eq_hash_delegate_to_owner (f g : MediumLevelILFunction)
    (h : Nat → Nat) :
    (mlilBeq f g = true ↔ (get_function f).ownerId = (get_function g).ownerId) ∧
    (mlilBeq f g = true → mlilHash h f = mlilHash h g) ∧
    (∀ g', ssa_form f = .ok g' → mlilBeq f g' = true) := by
  refine ⟨?_, ?_, ?_⟩
  · simp [mlilBeq, funcBeq]
  · intro hbeq
    have : (get_function f).ownerId = (get_function g).ownerId := by
      simpa [mlilBeq, funcBeq] using hbeq
    simp [mlilHash, this]
  · intro g' hg'
    cases hssa : f.ssa with
    | none => simp [ssa_form, hssa] at hg'
    | some d =>
      rw [ssa_form, hssa] at hg'
      simp only [Except.ok.injEq] at hg'
      simp [mlilBeq, funcBeq, ← hg', get_function]

/-- C10 witness: the sample function and its SSA form are distinct
containers (their instruction counts differ) yet compare equal, and they
hash identically under a concrete hasher. -/
theorem mlil_eq_hash_delegate_to_owner_witness :
    mlilBeq sampleF sampleSSAF = true ∧
    sampleF ≠ sampleSSAF ∧
    mlilHash Nat.succ sampleF = mlilHash Nat.succ sampleSSAF := by
  have hbeq : mlilBeq sampleF sampleSSAF = true :=
    (mlil_eq_hash_delegate_to_owner sampleF sampleSSAF Nat.succ).2.2 sampleSSAF rfl
  refine ⟨hbeq, ?_, ?_⟩
  · intro hcontra
    have : sampleF.data.instructionCount = sampleSSAF.data.instructionCount :=
      congrArg (fun x => x.data.instructionCount) hcontra
    simp [sampleF, sampleSSAF, sampleData, sampleSSAData] at this
  · exact (mlil_eq_hash_delegate_to_owner sampleF sampleSSAF Nat.succ).2.1 hbeq

/-! ### C3: scope of `var_refs_from` with and without a length -/

/-- C3 counterexample: omitting the length does not give whole-function
scope.  The sample function's whole-function reference list contains a
reference at address `5`, yet `var_refs_from` at address `3` with no length
returns nothing (while the same query with length `10`, covering the range
up to `13`, does return it). -/
theorem var_refs_from_no_length_not_whole_function :
    var_refs_from sampleF 3 none none = [] ∧
    refAt5 ∈ (get_function sampleF).varRefs (get_function sampleF).arch ∧
    refAt5 ∈ var_refs_from sampleF 3 (some 10) none := by
  refine ⟨rfl, ?_, ?_⟩ <;> decide

/-- C3 amended: supplying a length `L` returns exactly the references of
the half-open range from the address of that length, while omitting the
length returns exactly the references at the single queried address (not
the whole function). -/
theorem var_refs_from_range_semantics (f : MediumLevelILFunction)
    (addr : Nat) (r : VariableReferenceSource) :
    (∀ len, r ∈ var_refs_from f addr (some len) none ↔
      r ∈ (get_function f).varRefs (get_function f).arch ∧
        addr ≤ r.source.addr ∧ r.source.addr < addr + len) ∧
    (r ∈ var_refs_from f addr none none ↔
      r ∈ (get_function f).varRefs (get_function f).arch ∧
        r.source.addr = addr) := by
  constructor
  · intro len
    simp [var_refs_from, bnGetVariableReferencesInRange, List.mem_filter,
      and_assoc]
  · simp [var_refs_from, bnGetVariableReferencesFrom, List.mem_filter]

/-- C3 amended witness: in the sample function, `refAt5` is returned by the
length-`10` query from address `3` and by the no-length query at its exact
address `5`. -/
theorem var_refs_from_range_semantics_witness :
    refAt5 ∈ var_refs_from sampleF 3 (some 10) none ∧
    refAt5 ∈ var_refs_from sampleF 5 none none := by
  constructor
  · exact (var_refs_from_range_semantics sampleF 3 refAt5).1 10 |>.mpr
      ⟨by decide, by decide, by decide⟩
  · exact (var_refs_from_range_semantics sampleF 5 refAt5).2.mpr
      ⟨by decide, by decide⟩

/-! ### C7: the architecture parameter of `var_refs_from` -/

/-- C7: when the architecture parameter is omitted, `var_refs_from` queries
with the owner function's own architecture (the call behaves exactly as if
that architecture had been passed); a supplied architecture is the one used
by the dispatched query, and it is honored rather than ignored: on the
sample function an explicit different architecture changes the result. -/
theorem var_refs_from_arch_default_and_honored (f : MediumLevelILFunction)
    (addr : Nat) (length : Option Nat) (a : Arch) :
    (var_refs_from f addr length none =
      var_refs_from f addr length (some (get_function f).arch)) ∧
    (var_refs_from f addr length (some a) =
      match length with
      | some len => bnGetVariableReferencesInRange (get_function f) a addr len
      | none => bnGetVariableReferencesFrom (get_function f) a addr) ∧
    var_refs_from sampleF 5 none (some arch1) ≠
      var_refs_from sampleF 5 none none := by
  refine ⟨?_, ?_, ?_⟩
  · cases length <;> rfl
  · cases length <;> rfl
  · intro hcontra
    have : ([] : List VariableReferenceSource) = [refAt5] := hcontra
    simp at this

/-- C7 witness: with no architecture the sample query at address `5`
returns the reference found under the function's own architecture, while
the explicit foreign architecture returns nothing. -/
theorem var_refs_from_arch_default_and_honored_witness :
    var_refs_from sampleF 5 none none =
      var_refs_from sampleF 5 none (some (get_function sampleF).arch) ∧
    var_refs_from sampleF 5 none none = [refAt5] ∧
    var_refs_from sampleF 5 none (some arch1) = [] := by
  exact ⟨(var_refs_from_arch_default_and_honored sampleF 5 none arch1).1,
    by decide, by decide⟩

/-! ### C8: context carried by the missing-definition-site error -/

/-- C8 counterexample: the missing-definition-site error carries no context
at all.  Two failing calls about different variables and different
addresses produce the very same error value (the unit error `Err(())`), so
neither the variable identity nor the requested address can be recovered
from it. -/
theorem set_value_error_carries_no_context :
    (set_user_var_value sampleF varV 5 (.constantValue 1)).1 = .error () ∧
    (set_user_var_value sampleF varW 9 (.constantValue 2)).1 = .error () ∧
    varV ≠ varW ∧ (5 : Nat) ≠ 9 ∧
    (set_user_var_value sampleF varV 5 (.constantValue 1)).1 =
      (set_user_var_value sampleF varW 9 (.constantValue 2)).1 ∧
    (clear_user_var_value sampleF varV 5).1 =
      (clear_user_var_value sampleF varW 9).1 := by
  refine ⟨rfl, rfl, by decide, by decide, rfl, rfl⟩

/-- C8 amended: `set_user_var_value` and `clear_user_var_value` do report
the missing-definition-site failure, but the reported error is the bare
unit value: any two failing calls — whatever their function, variable and
address — return identical error values, so the caller must take the
variable identity and the requested address from its own arguments rather
than from the error. -/
theorem set_clear_value_error_no_context (f₁ f₂ : MediumLevelILFunction)
    (v₁ v₂ : Variable) (a₁ a₂ : Nat) (val₁ val₂ : PossibleValueSet)
    (h₁ : hasDefSite f₁ v₁ a₁ = false) (h₂ : hasDefSite f₂ v₂ a₂ = false) :
    (set_user_var_value f₁ v₁ a₁ val₁).1 = .error () ∧
    (set_user_var_value f₁ v₁ a₁ val₁).1 = (set_user_var_value f₂ v₂ a₂ val₂).1 ∧
    (clear_user_var_value f₁ v₁ a₁).1 = (clear_user_var_value f₂ v₂ a₂).1 := by
  have e₁ := set_clear_error_of_no_def_site f₁ v₁ a₁ val₁ h₁
  have e₂ := set_clear_error_of_no_def_site f₂ v₂ a₂ val₂ h₂
  refine ⟨?_, ?_, ?_⟩
  · rw [e₁.1]
  · rw [e₁.1, e₂.1]
  · rw [e₁.2, e₂.2]

/-- C8 amended witness: two concrete failing calls with different variables
and addresses return the same unit error. -/
theorem set_clear_value_error_no_context_witness :
    hasDefSite sampleF varV 5 = false ∧ hasDefSite sampleF varW 9 = false ∧
    (set_user_var_value sampleF varV 5 (.constantValue 1)).1 =
      (set_user_var_value sampleF varW 9 (.constantValue 2)).1 := by
  refine ⟨by decide, by decide, ?_⟩
  exact (set_clear_value_error_no_context sampleF sampleF varV varW 5 9
    (.constantValue 1) (.constantValue 2) (by decide) (by decide)).2.1

/-! ### C4: `clear_user_var_values` clears each fact, stopping at the
first failure -/

/-- The (variable, definition-site) key identifying a user value fact. -/
def factKey (g : UserValueFact) : Variable × ArchitectureAndAddress :=
  (g.var, g.site)

/-- On a definition site, `clear_user_var_value` succeeds and removes the
fact keyed by the owner function's architecture and the given address. -/
theorem clear_ok_state (f : MediumLevelILFunction) (v : Variable) (a : Nat)
    (h : hasDefSite f v a = true) :
    clear_user_var_value f v a =
      (.ok (), { f with owner :=
        bnClearUserVariableValue f.owner v { arch := f.owner.arch, address := a } }) := by
  cases hfind : (get_var_definitions f v).find? (fun d => d.address == a) with
  | none => simp [hasDefSite, hfind] at h
  | some d => simp [clear_user_var_value, hfind, get_function]

/-- Invariant of the `clear_user_var_values` loop on a run that clears
every listed fact: it succeeds, preserves the MLIL data and the owner's
architecture, and the facts left are exactly those whose key matches no
cleared fact. -/
theorem clearValuesLoop_ok_spec (l : List UserValueFact) :
    ∀ f : MediumLevelILFunction,
      (∀ g ∈ l, hasDefSite f g.var g.site.address = true) →
      (∀ g ∈ l, g.site.arch = f.owner.arch) →
      (clearValuesLoop f l).1 = .ok () ∧
      (clearValuesLoop f l).2.data = f.data ∧
      (clearValuesLoop f l).2.owner.arch = f.owner.arch ∧
      (∀ e, e ∈ (clearValuesLoop f l).2.owner.userVarValues ↔
        e ∈ f.owner.userVarValues ∧
          ∀ x ∈ l, ¬(e.var = x.var ∧ e.site = x.site)) := by
  induction l with
  | nil =>
    intro f _ _
    refine ⟨rfl, rfl, rfl, fun e => ?_⟩
    simp [clearValuesLoop]
  | cons g l ih =>
    intro f hdef harch
    have hg : hasDefSite f g.var g.site.address = true :=
      hdef g (List.mem_cons_self g l)
    have hga : g.site.arch = f.owner.arch := harch g (List.mem_cons_self g l)
    have hkey : ({ arch := f.owner.arch, address := g.site.address } :
        ArchitectureAndAddress) = g.site := by
      rw [← hga]
    have hstep : clear_user_var_value f g.var g.site.address =
        (.ok (), { f with owner := bnClearUserVariableValue f.owner g.var g.site }) := by
      rw [clear_ok_state f g.var g.site.address hg, hkey]
    have hloop : clearValuesLoop f (g :: l) =
        clearValuesLoop
          { f with owner := bnClearUserVariableValue f.owner g.var g.site } l := by
      simp only [clearValuesLoop, hstep]
    obtain ⟨ih1, ih2, ih3, ih4⟩ :=
      ih { f with owner := bnClearUserVariableValue f.owner g.var g.site }
        (fun x hx => hdef x (List.mem_cons_of_mem g hx))
        (fun x hx => harch x (List.mem_cons_of_mem g hx))
    rw [hloop]
    refine ⟨ih1, ih2, ih3, fun e => ?_⟩
    rw [ih4 e]
    have hmem : e ∈ (bnClearUserVariableValue f.owner g.var g.site).userVarValues ↔
        e ∈ f.owner.userVarValues ∧ ¬(e.var = g.var ∧ e.site = g.site) := by
      show e ∈ (f.owner.userVarValues.filter
        (fun x => !(x.var == g.var && x.site == g.site))) ↔ _
      rw [List.mem_filter]
      refine and_congr_right fun _ => ?_
      constructor
      · intro hb hcontra
        rw [hcontra.1, hcontra.2] at hb
        simp at hb
      · intro hn
        have hfalse : (e.var == g.var && e.site == g.site) = false := by
          by_cases h1 : e.var = g.var
          · by_cases h2 : e.site = g.site
            · exact absurd ⟨h1, h2⟩ hn
            · simp [h2]
          · simp [h1]
        rw [hfalse]
        rfl
    rw [show ({ f with owner := bnClearUserVariableValue f.owner g.var g.site } :
        MediumLevelILFunction).owner = bnClearUserVariableValue f.owner g.var g.site
      from rfl]
    rw [hmem, List.forall_mem_cons, and_assoc]

/-- Splitting a `clear_user_var_values` run at a list append: the second
half runs only when the first half succeeded. -/
theorem clearValuesLoop_append (l₁ l₂ : List UserValueFact) :
    ∀ f : MediumLevelILFunction,
      clearValuesLoop f (l₁ ++ l₂) =
        match clearValuesLoop f l₁ with
        | (.ok _, f') => clearValuesLoop f' l₂
        | (.error e, f') => (.error e, f') := by
  induction l₁ with
  | nil => intro f; rfl
  | cons g l ih =>
    intro f
    rcases hc : clear_user_var_value f g.var g.site.address with ⟨r, f'⟩
    cases r with
    | error e => simp only [List.cons_append, clearValuesLoop, hc]
    | ok u =>
      simp only [List.cons_append, clearValuesLoop, hc]
      exact ih f'

/-- `hasDefSite` only reads the MLIL data. -/
theorem hasDefSite_eq_of_data_eq (f g : MediumLevelILFunction)
    (h : f.data = g.data) (v : Variable) (a : Nat) :
    hasDefSite f v a = hasDefSite g v a := by
  unfold hasDefSite get_var_definitions
  rw [h]

/-- C4: `clear_user_var_values` enumerates the snapshot of currently-set
user value facts and clears each in turn.  When every fact clears, the
whole call succeeds and `user_var_values` is left empty.  When some fact
fails to clear (its address is no definition site of its variable), the
call stops there and reports the error; every fact before the failing one
has been cleared, while the failing fact and all later ones stay set and
can be re-queried through `user_var_values`. -/
theorem clear_all_values_first_failure :
    (∀ f : MediumLevelILFunction,
      (∀ g ∈ user_var_values f, hasDefSite f g.var g.site.address = true ∧
        g.site.arch = (get_function f).arch) →
      (clear_user_var_values f).1 = .ok () ∧
      user_var_values (clear_user_var_values f).2 = []) ∧
    (∀ (f : MediumLevelILFunction) (pre post : List UserValueFact)
        (b : UserValueFact),
      user_var_values f = pre ++ b :: post →
      (∀ g ∈ pre, hasDefSite f g.var g.site.address = true) →
      (∀ g ∈ pre, g.site.arch = (get_function f).arch) →
      hasDefSite f b.var b.site.address = false →
      (user_var_values f).Pairwise (fun x y => factKey x ≠ factKey y) →
      (clear_user_var_values f).1 = .error () ∧
      (∀ g ∈ pre, g ∉ user_var_values (clear_user_var_values f).2) ∧
      (∀ g ∈ b :: post, g ∈ user_var_values (clear_user_var_values f).2)) := by
  constructor
  · intro f hall
    obtain ⟨h1, _, _, h4⟩ := clearValuesLoop_ok_spec (user_var_values f) f
      (fun g hg => (hall g hg).1) (fun g hg => (hall g hg).2)
    refine ⟨h1, ?_⟩
    rw [List.eq_nil_iff_forall_not_mem]
    intro e he
    obtain ⟨hmem, hnone⟩ := (h4 e).mp he
    exact hnone e hmem ⟨rfl, rfl⟩
  · intro f pre post b hsnap hpre hprearch hfail hkeys
    obtain ⟨h1, h2, h3, h4⟩ := clearValuesLoop_ok_spec pre f hpre hprearch
    rcases hrun : clearValuesLoop f pre with ⟨r, f₀⟩
    have hr : r = .ok () := by rw [hrun] at h1; exact h1
    subst hr
    have hfail₀ : hasDefSite f₀ b.var b.site.address = false := by
      have := hasDefSite_eq_of_data_eq f₀ f (by rw [hrun] at h2; exact h2)
        b.var b.site.address
      rw [this]
      exact hfail
    have hstep : clear_user_var_value f₀ b.var b.site.address = (.error (), f₀) :=
      (set_clear_error_of_no_def_site f₀ b.var b.site.address .undeterminedValue
        hfail₀).2
    have hwhole : clear_user_var_values f = (.error (), f₀) := by
      show clearValuesLoop f (user_var_values f) = _
      rw [hsnap, clearValuesLoop_append pre (b :: post) f, hrun]
      show clearValuesLoop f₀ (b :: post) = _
      simp only [clearValuesLoop, hstep]
    have hcross : ∀ x ∈ pre, ∀ y ∈ b :: post, factKey x ≠ factKey y := by
      rw [hsnap] at hkeys
      exact (List.pairwise_append.mp hkeys).2.2
    have hmem₀ : ∀ e, e ∈ f₀.owner.userVarValues ↔
        e ∈ f.owner.userVarValues ∧
          ∀ x ∈ pre, ¬(e.var = x.var ∧ e.site = x.site) := by
      intro e
      have := h4 e
      rw [hrun] at this
      exact this
    refine ⟨by rw [hwhole], ?_, ?_⟩
    · intro g hgpre hgmem
      rw [hwhole] at hgmem
      obtain ⟨_, hnone⟩ := (hmem₀ g).mp hgmem
      exact hnone g hgpre ⟨rfl, rfl⟩
    · intro g hgpost
      rw [hwhole]
      refine (hmem₀ g).mpr ⟨?_, ?_⟩
      · show g ∈ user_var_values f
        rw [hsnap]
        exact List.mem_append_right pre hgpost
      · intro x hxpre hxeq
        exact hcross x hxpre g hgpost (by
          unfold factKey
          rw [hxeq.1, hxeq.2])

/-! ### Sample state for the C4 witness -/

/-- A third variable, with no definition site in the sample function. -/
def varX : Variable := { sourceType := 0, index := 3, storage := 16 }

/-- A fact that clears successfully (its site `4096` defines `varV`). -/
def factA : UserValueFact :=
  { var := varV, site := { arch := arch0, address := 4096 }, value := .constantValue 1 }

/-- A fact whose clear fails: `5000` is no definition site of `varW`. -/
def factB : UserValueFact :=
  { var := varW, site := { arch := arch0, address := 5000 }, value := .constantValue 2 }

/-- A fact after the failing one, left untouched. -/
def factC : UserValueFact :=
  { var := varX, site := { arch := arch0, address := 6000 }, value := .constantValue 3 }

/-- Owner function for the C4 failure scenario. -/
def sampleOwnerC4 : FunctionState :=
  { ownerId := 8
    arch := arch0
    userVarValues := [factA, factB, factC]
    varRefs := fun _ => []
    propagations := 0 }

/-- MLIL handle for the C4 failure scenario. -/
def sampleC4F : MediumLevelILFunction :=
  { owner := sampleOwnerC4, data := sampleData, ssa := none }

/-- C4 witness: clearing the sample function with one fact at a real
definition site succeeds and empties the facts; in the three-fact scenario
the run fails at the second fact, the first fact is gone, and the failing
and following facts remain queryable. -/
theorem clear_all_values_first_failure_witness :
    ((clear_user_var_values sampleF).1 = .ok () ∧
      user_var_values (clear_user_var_values sampleF).2 = []) ∧
    ((clear_user_var_values sampleC4F).1 = .error () ∧
      factA ∉ user_var_values (clear_user_var_values sampleC4F).2 ∧
      factB ∈ user_var_values (clear_user_var_values sampleC4F).2 ∧
      factC ∈ user_var_values (clear_user_var_values sampleC4F).2) := by
  constructor
  · exact clear_all_values_first_failure.1 sampleF (by decide)
  · obtain ⟨h1, h2, h3⟩ := clear_all_values_first_failure.2 sampleC4F
      [factA] [factC] factB (by decide) (by decide) (by decide) (by decide)
      (by decide)
    exact ⟨h1, h2 factA (by decide), h3 factB (by decide), h3 factC (by decide)⟩

end MLILSpec
